import Mathlib

/-!
Shallow embedding of the RTWM (Real Time Website Monitoring) Express service,
`src/index.js`.  The embedding covers the pieces the specification talks
about: the JavaScript value coercions the handler relies on (`Number`,
string truthiness, `||` defaulting), the cache-classification decision
procedure of the `/monitor` handler, the uptime formatter
`formatUptimeSeconds`, the byte-length helper `bytesLengthFromString`, and
the `/monitor` request handler itself with its two outbound fetches
modelled as explicit outcome values.
-/

namespace RTWM

/-- Result of the JavaScript `Number(...)` conversion: either NaN or a
finite numeric value, modelled as a rational. -/
inductive JsNum where
  | nan : JsNum
  | num : ℚ → JsNum
deriving Repr, DecidableEq

/-- Positivity test on a JavaScript number, false for NaN (as in JS,
where comparing NaN is always false). -/
def jsPos : JsNum → Bool
  | .nan => false
  | .num q => decide (0 < q)

/-- JavaScript whitespace characters stripped by `Number(string)`
(the common ones: space, tab, newline, carriage return). -/
def isJsWs (c : Char) : Bool :=
  c = ' ' || c = '\t' || c = '\n' || c = '\r'

/-- Strip leading and trailing whitespace from a character list. -/
def trimWs (cs : List Char) : List Char :=
  ((cs.dropWhile isJsWs).reverse.dropWhile isJsWs).reverse

/-- Value of a digit string, most significant first. -/
def digitsToNat (cs : List Char) : ℕ :=
  cs.foldl (fun a c => a * 10 + (c.toNat - 48)) 0

/-- Parse an unsigned decimal numeral (digits, optionally a dot and more
digits; at least one digit overall), returning the scaled mantissa and the
number of fractional digits, so the value is `mantissa / 10 ^ scale`. -/
def parseDecimal (cs : List Char) : Option (ℕ × ℕ) :=
  let ip := cs.takeWhile Char.isDigit
  let rest := cs.dropWhile Char.isDigit
  match rest with
  | [] => if ip.isEmpty then none else some (digitsToNat ip, 0)
  | c :: frac =>
    if c = '.' ∧ frac.all Char.isDigit ∧ (ip ≠ [] ∨ frac ≠ []) then
      some (digitsToNat ip * 10 ^ frac.length + digitsToNat frac, frac.length)
    else none

/-- Model of ECMAScript `Number(string)`: trims whitespace, the empty
string converts to 0, an optional sign followed by a decimal numeral
converts to its value, anything else to NaN.  (The exotic forms — hex,
binary, exponent notation, `Infinity` — are mapped to NaN in this model;
none of the verified properties depends on them.) -/
def jsNumber (s : String) : JsNum :=
  let cs := trimWs s.data
  if cs.isEmpty then .num 0
  else
    let sr : Int × List Char :=
      match cs with
      | '+' :: r => (1, r)
      | '-' :: r => ((-1 : Int), r)
      | r => (1, r)
    match parseDecimal sr.2 with
    | some vk => .num (mkRat (sr.1 * (vk.1 : Int)) (10 ^ vk.2))
    | none => .nan

/-- Model of the ECMAScript number-to-string conversion used by the
template literal `age:${age}`: exact for NaN and for integral values
(the only values a well-formed `Age` header yields); a non-integral
rational is rendered through its fraction form as an approximation. -/
def jsNumToString : JsNum → String
  | .nan => "NaN"
  | .num q => if q.den = 1 then toString q.num else toString q

/-- Model of `String.prototype.toLowerCase` on one character: the header
values involved are ASCII, so only the ASCII range is mapped. -/
def jsCharLower (c : Char) : Char :=
  if 65 ≤ c.toNat ∧ c.toNat ≤ 90 then Char.ofNat (c.toNat + 32) else c

/-- Model of the JavaScript `toLowerCase()` used on header values. -/
def jsToLowerCase (s : String) : String :=
  ⟨s.data.map jsCharLower⟩

/-- JavaScript `a || b` on strings: the empty string is falsy. -/
def jsStrOr (a b : String) : String :=
  if a = "" then b else a

/-- JavaScript `headers.get(name) || rest`: `get` yields `null` for a
missing header; both `null` and the empty string fall through. -/
def jsOrOpt (a : Option String) (b : String) : String :=
  match a with
  | some s => if s = "" then b else s
  | none => b

/-- JavaScript `String.prototype.includes`: substring containment. -/
def strIncludes (s pat : String) : Bool :=
  decide (pat.data <:+: s.data)

/-- The response headers the `/monitor` cache classifier consults
(`headers.get` is case-insensitive, so one field per header name;
`none` models an absent header). -/
structure Headers where
  age : Option String
  xCache : Option String
  xCacheHits : Option String
  cfCacheStatus : Option String
  xNfRequestId : Option String
deriving Repr, DecidableEq

/-- Line 196, `const age = ageHeader ? Number(ageHeader) : 0;` — the `Age` header
value as a JavaScript number (absent or empty header gives 0 via
truthiness). -/
def ageValue (h : Headers) : JsNum :=
  match h.age with
  | some s => if s = "" then .num 0 else jsNumber s
  | none => .num 0

/-- Line 206, `headers.get("x-cache") || headers.get("x-cache-hits") || ""`. -/
def xcacheOf (h : Headers) : String :=
  jsOrOpt h.xCache (jsOrOpt h.xCacheHits "")

/-- Line 207, `headers.get("cf-cache-status") || ""`. -/
def cfOf (h : Headers) : String :=
  jsOrOpt h.cfCacheStatus ""

/-- Line 208, `headers.get("x-nf-request-id") || ""`. -/
def nfOf (h : Headers) : String :=
  jsOrOpt h.xNfRequestId ""

/-- The `/monitor` cache classification (src/index.js lines 194-232),
returning the pair `(out.cache, out.cacheReason)` assigned on the
successful-fetch path. -/
def classifyCache (h : Headers) : String × String :=
  let age := ageValue h
  if jsPos age then ("HIT", "age:" ++ jsNumToString age)
  else
    let xcache := xcacheOf h
    let cfCache := cfOf h
    let xNf := nfOf h
    let xcLower := jsToLowerCase (jsStrOr xcache "")
    let cfLower := jsToLowerCase (jsStrOr cfCache "")
    let nfLower := jsToLowerCase (jsStrOr xNf "")
    if strIncludes cfLower "hit" || strIncludes xcLower "hit" then
      ("HIT", if cfLower = "" then "x-cache:" ++ xcache else "cf:" ++ cfCache)
    else if strIncludes cfLower "revalidated" || strIncludes xcLower "revalidated" ||
        strIncludes xcLower "stale-while-revalidate" || strIncludes xcLower "revalidate" then
      ("REVALIDATED", if cfLower = "" then "x-cache:" ++ xcache else "cf:" ++ cfCache)
    else if strIncludes cfLower "miss" || strIncludes xcLower "miss" then
      ("MISS", if cfLower = "" then "x-cache:" ++ xcache else "cf:" ++ cfCache)
    else
      if strIncludes nfLower "cache" || strIncludes nfLower "hit" then
        ("HIT", "x-nf-request-id:" ++ xNf)
      else
        ("UNKNOWN", "x-nf-request-id:" ++ jsStrOr xNf "none")

/-- The function `formatUptimeSeconds` (src/index.js lines 98-109): format a duration
given in seconds as "1h 12m 10s".  Negative or non-finite (NaN) input
gives "0s"; otherwise the value is floored to whole seconds and split
into hours, minutes and seconds, where the hours part is pushed only when
nonzero, the minutes part when minutes or hours is nonzero, and the
seconds part always. -/
def formatUptimeSeconds (sec : JsNum) : String :=
  match sec with
  | .nan => "0s"
  | .num q =>
    if q < 0 then "0s"
    else
      let s := (⌊q⌋).toNat
      let hours := s / 3600
      let mins := (s % 3600) / 60
      let secs := s % 60
      let parts : List String :=
        (if hours ≠ 0 then [toString hours ++ "h"] else []) ++
        (if mins ≠ 0 ∨ hours ≠ 0 then [toString mins ++ "m"] else []) ++
        [toString secs ++ "s"]
      String.intercalate " " parts

/-- The helper `bytesLengthFromString` (src/index.js lines 112-115): the UTF-8 byte
length of a string (`Buffer.byteLength(str, "utf8")`).  The `typeof`
guard of the JavaScript source cannot fire in a typed embedding. -/
def bytesLengthFromString (str : String) : ℕ :=
  str.utf8ByteSize

/-- Outcome of the timeout-bounded fetch of the target URL: either the
promise rejected (timeout / network error, carrying `err.name` when the
error object has a truthy name), or a response arrived with a status
code, a body text (`none` when reading the body rejected, which the
handler turns into `""`), and headers. -/
inductive TargetOutcome where
  | fetchError (errName : Option String) : TargetOutcome
  | fetched (status : ℕ) (body : Option String) (hs : Headers) : TargetOutcome
deriving Repr

/-- A JSON value sitting in the `uptime` field of the origin-uptime
response body (only the shapes `Number(...)` distinguishes). -/
inductive JVal where
  | vnull : JVal
  | vnum (q : ℚ) : JVal
  | vstr (s : String) : JVal
  | vbool (b : Bool) : JVal
  | vother : JVal
deriving Repr, DecidableEq

/-- ECMAScript `Number(...)` on a JSON field value: numbers pass through,
`null` converts to 0, strings are parsed, booleans to 0/1, and the
remaining shapes (objects, arrays) are mapped to NaN in this model. -/
def jsToNumber : JVal → JsNum
  | .vnull => .num 0
  | .vnum q => .num q
  | .vstr s => if s = "" then .num 0 else jsNumber s
  | .vbool b => .num (if b then 1 else 0)
  | .vother => .nan

/-- The parsed origin-uptime response body, `uRes.json().catch(() => null)`:
`jnull` covers both a JSON `null` and a body that failed to parse; `jobj`
carries the `uptime` field when present; `jother` is any other JSON value
with its JavaScript truthiness. -/
inductive OriginJson where
  | jnull : OriginJson
  | jnum (q : ℚ) : OriginJson
  | jobj (uptime : Option JVal) : OriginJson
  | jother (truthy : Bool) : OriginJson
deriving Repr

/-- Outcome of the timeout-bounded fetch of the origin-uptime endpoint. -/
inductive OriginOutcome where
  | fetchError : OriginOutcome
  | fetched (status : ℕ) (uj : OriginJson) : OriginOutcome
deriving Repr

/-- Model of the `node-fetch` `res.ok` flag: status in the 2xx range. -/
def resOk (status : ℕ) : Bool :=
  decide (200 ≤ status ∧ status < 300)

/-- The origin-uptime branch of the `/monitor` handler (src/index.js lines
245-269): the pair `(out.originUptime, out.originUptimeFormatted)` it
leaves in the record, starting from the initial `(null, null)`.
`originUptime` is `some .nan` when `Number(uj.uptime)` produced NaN (the
`Number.isFinite` guard then skips the formatted string). -/
def originAssign : OriginOutcome → Option JsNum × Option String
  | .fetchError => (none, some "unavailable")
  | .fetched status uj =>
    if resOk status then
      match uj with
      | .jobj (some v) =>
        if v = JVal.vnull then (none, none)
        else
          match jsToNumber v with
          | .num q => (some (.num q), some (formatUptimeSeconds (.num q)))
          | .nan => (some .nan, none)
      | .jnum q => (some (.num q), some (formatUptimeSeconds (.num q)))
      | _ => (none, none)
    else (none, some ("unavailable (status " ++ toString status ++ ")"))

/-- Process-wide configuration read at startup (src/index.js lines 93-94):
`DEFAULT_TARGET` and `DEFAULT_ORIGIN_UPTIME_ENDPOINT`. -/
structure Config where
  defaultTarget : String
  defaultOriginUptimeEndpoint : String
deriving Repr

/-- The query parameters of a `/monitor` request (`none` = absent). -/
structure Query where
  target : Option String
  originUptime : Option String
  origin_uptime : Option String
deriving Repr

/-- Line 160, `const target = (req.query.target && String(req.query.target))
|| DEFAULT_TARGET;`. -/
def selectTarget (qt : Option String) (deflt : String) : String :=
  match qt with
  | some s => if s = "" then deflt else s
  | none => deflt

/-- Lines 161-162, `originUptimeOverride = (req.query.originUptime && …) ||
(req.query.origin_uptime && …)`; `originUptimeEndpoint =
originUptimeOverride || DEFAULT_ORIGIN_UPTIME_ENDPOINT`. -/
def originEndpointOf (cfg : Config) (q : Query) : String :=
  match q.originUptime with
  | some s =>
    if s = "" then
      match q.origin_uptime with
      | some t => if t = "" then cfg.defaultOriginUptimeEndpoint else t
      | none => cfg.defaultOriginUptimeEndpoint
    else s
  | none =>
    match q.origin_uptime with
    | some t => if t = "" then cfg.defaultOriginUptimeEndpoint else t
    | none => cfg.defaultOriginUptimeEndpoint

/-- The JSON record served by `/monitor` (the `out` object, src/index.js
lines 164-177). -/
structure MonitorOut where
  target : String
  online : Bool
  statusCode : ℕ
  latency : ℤ
  cache : String
  cacheReason : Option String
  bandwidth : ℕ
  uptime : ℚ
  uptimeFormatted : String
  originUptime : Option JsNum
  originUptimeFormatted : Option String
  timestamp : ℕ
deriving Repr

/-- The `/monitor` handler (src/index.js lines 159-275).  The two outbound
fetches are modelled as functions from the URL fetched to an outcome;
`elapsed` is the measured latency `Date.now() - start`, `procUptime` the
value of `process.uptime()`, `now` the timestamp.  The result is the pair
(HTTP status of the monitoring response, served record): `res.json(out)`
always answers 200. -/
def monitorHandler (cfg : Config) (q : Query) (tFetch : String → TargetOutcome)
    (oFetch : String → OriginOutcome) (elapsed : ℕ) (procUptime : ℚ) (now : ℕ) :
    ℕ × MonitorOut :=
  let target := selectTarget q.target cfg.defaultTarget
  let originUptimeEndpoint := originEndpointOf cfg q
  let out : MonitorOut :=
    { target := target
      online := false
      statusCode := 0
      latency := -1
      cache := "UNKNOWN"
      cacheReason := none
      bandwidth := 0
      uptime := procUptime
      uptimeFormatted := formatUptimeSeconds (.num procUptime)
      originUptime := none
      originUptimeFormatted := none
      timestamp := now }
  let afterTarget : MonitorOut :=
    match tFetch target with
    | .fetched status body hs =>
      let text := body.getD ""
      let c := classifyCache hs
      { out with
        latency := (elapsed : ℤ)
        statusCode := status
        online := resOk status
        bandwidth := bytesLengthFromString text
        cache := c.1
        cacheReason := some c.2 }
    | .fetchError errName =>
      { out with
        online := false
        latency := -1
        statusCode := 0
        cache := "NONE"
        cacheReason := some ("fetch-error:" ++ jsOrOpt errName "error")
        bandwidth := 0 }
  let o := originAssign (oFetch originUptimeEndpoint)
  (200, { afterTarget with originUptime := o.1, originUptimeFormatted := o.2 })

/-- Spec-side rendition (§4.5 of the specification) of the decomposition
of a whole-second duration: the hours segment appears only if nonzero,
the minutes segment appears iff minutes or hours is nonzero, and the
seconds segment always appears.  Stated over the already-truncated whole
seconds; compared against `formatUptimeSeconds` for the refinement
claim. -/
def specUptimeDecomposition (n : ℕ) : String :=
  let hours := n / 3600
  let mins := (n % 3600) / 60
  let secs := n % 60
  (if hours ≠ 0 then toString hours ++ "h " else "") ++
    (if mins ≠ 0 ∨ hours ≠ 0 then toString mins ++ "m " else "") ++
    toString secs ++ "s"

/-! ## Helper lemmas -/

theorem intercalate_one (a : String) : String.intercalate " " [a] = a := rfl

theorem intercalate_two (a b : String) : String.intercalate " " [a, b] = a ++ " " ++ b := rfl

theorem intercalate_three (a b c : String) :
    String.intercalate " " [a, b, c] = a ++ " " ++ b ++ " " ++ c := rfl

theorem utf8Size_one_of_ascii {c : Char} (h : c.toNat < 128) : c.utf8Size = 1 := by
  have hlt : c.val.toBitVec.toNat < 128 := h
  simp [Char.utf8Size]
  intro h2
  exfalso
  rw [UInt32.lt_def, BitVec.lt_def] at h2
  simp at h2
  omega

theorem utf8Len_ascii (l : List Char) (h : ∀ c ∈ l, c.toNat < 128) :
    String.utf8ByteSize.go l = l.length := by
  induction l with
  | nil => rfl
  | cons c cs ih =>
    have h1 : c.utf8Size = 1 := utf8Size_one_of_ascii (h c (List.mem_cons_self c cs))
    have h2 := ih (fun x hx => h x (List.mem_cons_of_mem c hx))
    show String.utf8ByteSize.go cs + c.utf8Size = cs.length + 1
    rw [h1, h2]

theorem jsStrOr_empty (s : String) : jsStrOr s "" = s := by
  unfold jsStrOr
  by_cases h : s = ""
  · rw [if_pos h, h]
  · rw [if_neg h]

theorem strIncludes_mono {p₁ p₂ : String} (hsub : p₁.data <:+: p₂.data) {s : String}
    (h : strIncludes s p₂ = true) : strIncludes s p₁ = true := by
  unfold strIncludes at *
  simp only [decide_eq_true_eq] at *
  exact hsub.trans h

theorem strIncludes_false_mono {p₁ p₂ : String} (hsub : p₁.data <:+: p₂.data) {s : String}
    (h : strIncludes s p₁ = false) : strIncludes s p₂ = false := by
  unfold strIncludes at *
  simp only [decide_eq_false_iff_not] at *
  intro hc
  exact h (hsub.trans hc)

end RTWM

namespace RTWM

/-! ## Claims -/

/-- C1: for every response header set whose `Age` header is present and
parses to a positive number, the `/monitor` cache classification is HIT
and the reason records the age value, whatever the contents of
CF-Cache-Status, X-Cache, X-Cache-Hits and X-Nf-Request-Id. -/
theorem age_rule_dominates (h : Headers) (s : String) (q : ℚ)
    (hs : h.age = some s) (hp : jsNumber s = .num q) (hq : 0 < q) :
    classifyCache h = ("HIT", "age:" ++ jsNumToString (.num q)) := by
  have hne : s ≠ "" := by
    intro he
    rw [he] at hp
    have h0 : JsNum.num (0 : ℚ) = .num q := by rw [← hp]; rfl
    cases h0
    exact lt_irrefl 0 hq
  have hav : ageValue h = .num q := by
    simp only [ageValue, hs, if_neg hne]
    exact hp
  have hpos : jsPos (JsNum.num q) = true := by
    simpa [jsPos] using hq
  simp [classifyCache, hav, hpos]

/-- Witness for C1: a header set with `Age: 5` and contradictory
cache headers still classifies as HIT. -/
theorem age_rule_dominates_witness :
    classifyCache ⟨some "5", some "MISS", some "0", some "MISS", some "nothing"⟩ =
      ("HIT", "age:" ++ jsNumToString (.num 5)) :=
  age_rule_dominates ⟨some "5", some "MISS", some "0", some "MISS", some "nothing"⟩ "5" 5
    rfl (by decide) (by decide)

/-- C2 counterexample: with no Age header, `CF-Cache-Status: revalidate`
(which contains "revalidate" but not "hit") and everything else absent,
the code classifies UNKNOWN, not REVALIDATED — the REVALIDATED
rule of the claim does not hold as stated, because the code tests CF-Cache-Status only
for the substring "revalidated". -/
theorem revalidated_rule_counterexample :
    jsPos (ageValue ⟨none, none, none, some "revalidate", none⟩) = false ∧
    strIncludes (jsToLowerCase (cfOf ⟨none, none, none, some "revalidate", none⟩)) "hit" = false ∧
    strIncludes (jsToLowerCase (xcacheOf ⟨none, none, none, some "revalidate", none⟩)) "hit" = false ∧
    strIncludes (jsToLowerCase (cfOf ⟨none, none, none, some "revalidate", none⟩)) "revalidate" = true ∧
    (classifyCache ⟨none, none, none, some "revalidate", none⟩).1 = "UNKNOWN" := by
  decide

/-- C2 amended: for every response header set with no positive Age, if
neither CF-Cache-Status nor X-Cache (falling back to X-Cache-Hits)
contains "hit" (lower-cased), and either CF-Cache-Status contains
"revalidated", or the X-Cache value contains "revalidated",
"stale-while-revalidate" or "revalidate", then the classification is
REVALIDATED. -/
theorem revalidated_rule (h : Headers)
    (hage : jsPos (ageValue h) = false)
    (hcf : strIncludes (jsToLowerCase (cfOf h)) "hit" = false)
    (hxc : strIncludes (jsToLowerCase (xcacheOf h)) "hit" = false)
    (hrev : strIncludes (jsToLowerCase (cfOf h)) "revalidated" = true ∨
      strIncludes (jsToLowerCase (xcacheOf h)) "revalidated" = true ∨
      strIncludes (jsToLowerCase (xcacheOf h)) "stale-while-revalidate" = true ∨
      strIncludes (jsToLowerCase (xcacheOf h)) "revalidate" = true) :
    (classifyCache h).1 = "REVALIDATED" := by
  rcases hrev with h1 | h1 | h1 | h1 <;>
    simp [classifyCache, jsStrOr_empty, hage, hcf, hxc, h1]

/-- Witness for C2 (amended): `CF-Cache-Status: REVALIDATED` alone yields
REVALIDATED. -/
theorem revalidated_rule_witness :
    (classifyCache ⟨none, none, none, some "REVALIDATED", none⟩).1 = "REVALIDATED" :=
  revalidated_rule ⟨none, none, none, some "REVALIDATED", none⟩
    (by decide) (by decide) (by decide) (Or.inl (by decide))

/-- C3: with no positive Age and no hit/revalidate/miss signal in the
consulted CF-Cache-Status and X-Cache (falling back to X-Cache-Hits)
values, the classifier falls back to X-Nf-Request-Id: HIT when its
lower-casing contains "cache" or "hit" (the reason recording the raw
value), UNKNOWN otherwise (the reason recording the raw value, or "none"
when the header is absent or empty). -/
theorem nf_fallback_rule (h : Headers)
    (hage : jsPos (ageValue h) = false)
    (hcfh : strIncludes (jsToLowerCase (cfOf h)) "hit" = false)
    (hcfr : strIncludes (jsToLowerCase (cfOf h)) "revalidate" = false)
    (hcfm : strIncludes (jsToLowerCase (cfOf h)) "miss" = false)
    (hxch : strIncludes (jsToLowerCase (xcacheOf h)) "hit" = false)
    (hxcr : strIncludes (jsToLowerCase (xcacheOf h)) "revalidate" = false)
    (hxcm : strIncludes (jsToLowerCase (xcacheOf h)) "miss" = false) :
    ((strIncludes (jsToLowerCase (nfOf h)) "cache" = true ∨
        strIncludes (jsToLowerCase (nfOf h)) "hit" = true) →
      classifyCache h = ("HIT", "x-nf-request-id:" ++ nfOf h)) ∧
    (strIncludes (jsToLowerCase (nfOf h)) "cache" = false →
      strIncludes (jsToLowerCase (nfOf h)) "hit" = false →
      classifyCache h = ("UNKNOWN", "x-nf-request-id:" ++ jsStrOr (nfOf h) "none")) := by
  have hsub1 : ("revalidate".data : List Char) <:+: "revalidated".data := by decide
  have hsub2 : ("revalidate".data : List Char) <:+: "stale-while-revalidate".data := by decide
  have hcfrd := strIncludes_false_mono hsub1 hcfr
  have hxcrd := strIncludes_false_mono hsub1 hxcr
  have hxcsw := strIncludes_false_mono hsub2 hxcr
  constructor
  · rintro (h1 | h1) <;>
      simp [classifyCache, jsStrOr_empty, hage, hcfh, hcfr, hcfm, hxch, hxcr, hxcm,
        hcfrd, hxcrd, hxcsw, h1]
  · intro h1 h2
    simp [classifyCache, jsStrOr_empty, hage, hcfh, hcfr, hcfm, hxch, hxcr, hxcm,
      hcfrd, hxcrd, hxcsw, h1, h2]

/-- Witness for C3: a Netlify request id containing "cache" gives HIT; a
plain request id gives UNKNOWN; an absent one gives reason
"x-nf-request-id:none". -/
theorem nf_fallback_rule_witness :
    classifyCache ⟨none, none, none, none, some "01J-cache-77"⟩ =
      ("HIT", "x-nf-request-id:01J-cache-77") ∧
    classifyCache ⟨none, none, none, none, some "01J-77"⟩ =
      ("UNKNOWN", "x-nf-request-id:01J-77") ∧
    classifyCache ⟨none, none, none, none, none⟩ =
      ("UNKNOWN", "x-nf-request-id:none") := by
  refine ⟨?_, ?_, ?_⟩
  · exact (nf_fallback_rule ⟨none, none, none, none, some "01J-cache-77"⟩
      (by decide) (by decide) (by decide) (by decide) (by decide) (by decide) (by decide)).1
      (Or.inl (by decide))
  · exact (nf_fallback_rule ⟨none, none, none, none, some "01J-77"⟩
      (by decide) (by decide) (by decide) (by decide) (by decide) (by decide) (by decide)).2
      (by decide) (by decide)
  · exact (nf_fallback_rule ⟨none, none, none, none, none⟩
      (by decide) (by decide) (by decide) (by decide) (by decide) (by decide) (by decide)).2
      (by decide) (by decide)

/-- Every classification the header analysis can produce is one of the
four enum spellings HIT, MISS, REVALIDATED, UNKNOWN. -/
theorem classify_mem_enum (h : Headers) :
    (classifyCache h).1 ∈ (["HIT", "MISS", "REVALIDATED", "UNKNOWN", "NONE"] : List String) := by
  simp only [classifyCache]
  split_ifs <;> simp

/-- C4: when the target fetch fails (timeout or network error) before a
response is obtained, the served record has online false, latency -1,
statusCode 0, cache "NONE" and bandwidth 0, and the monitoring endpoint
itself still answers HTTP 200. -/
theorem fetch_failure_record (cfg : Config) (q : Query) (tFetch : String → TargetOutcome)
    (oFetch : String → OriginOutcome) (elapsed : ℕ) (u : ℚ) (now : ℕ) (nm : Option String)
    (hf : tFetch (selectTarget q.target cfg.defaultTarget) = .fetchError nm) :
    (monitorHandler cfg q tFetch oFetch elapsed u now).1 = 200 ∧
    (monitorHandler cfg q tFetch oFetch elapsed u now).2.online = false ∧
    (monitorHandler cfg q tFetch oFetch elapsed u now).2.latency = -1 ∧
    (monitorHandler cfg q tFetch oFetch elapsed u now).2.statusCode = 0 ∧
    (monitorHandler cfg q tFetch oFetch elapsed u now).2.cache = "NONE" ∧
    (monitorHandler cfg q tFetch oFetch elapsed u now).2.bandwidth = 0 := by
  simp [monitorHandler, hf]

/-- Witness for C4: a concrete timed-out probe (an `AbortError`) is served
as a degraded-but-valid record with outer status 200. -/
theorem fetch_failure_record_witness :
    (monitorHandler ⟨"T", "O"⟩ ⟨none, none, none⟩ (fun _ => .fetchError (some "AbortError"))
        (fun _ => .fetchError) 0 0 0).1 = 200 ∧
    (monitorHandler ⟨"T", "O"⟩ ⟨none, none, none⟩ (fun _ => .fetchError (some "AbortError"))
        (fun _ => .fetchError) 0 0 0).2.online = false ∧
    (monitorHandler ⟨"T", "O"⟩ ⟨none, none, none⟩ (fun _ => .fetchError (some "AbortError"))
        (fun _ => .fetchError) 0 0 0).2.latency = -1 ∧
    (monitorHandler ⟨"T", "O"⟩ ⟨none, none, none⟩ (fun _ => .fetchError (some "AbortError"))
        (fun _ => .fetchError) 0 0 0).2.statusCode = 0 ∧
    (monitorHandler ⟨"T", "O"⟩ ⟨none, none, none⟩ (fun _ => .fetchError (some "AbortError"))
        (fun _ => .fetchError) 0 0 0).2.cache = "NONE" ∧
    (monitorHandler ⟨"T", "O"⟩ ⟨none, none, none⟩ (fun _ => .fetchError (some "AbortError"))
        (fun _ => .fetchError) 0 0 0).2.bandwidth = 0 :=
  fetch_failure_record ⟨"T", "O"⟩ ⟨none, none, none⟩ (fun _ => .fetchError (some "AbortError"))
    (fun _ => .fetchError) 0 0 0 (some "AbortError") rfl

/-- C5: the outcome of the origin-uptime fetch never changes the online,
statusCode, latency, cache, cacheReason or bandwidth fields of the served
record — swapping the origin fetch for any other leaves them untouched —
and only originUptime / originUptimeFormatted are computed from it. -/
theorem origin_branch_independence (cfg : Config) (q : Query)
    (tFetch : String → TargetOutcome) (oF oG : String → OriginOutcome)
    (elapsed : ℕ) (u : ℚ) (now : ℕ) :
    (monitorHandler cfg q tFetch oF elapsed u now).2.online =
      (monitorHandler cfg q tFetch oG elapsed u now).2.online ∧
    (monitorHandler cfg q tFetch oF elapsed u now).2.statusCode =
      (monitorHandler cfg q tFetch oG elapsed u now).2.statusCode ∧
    (monitorHandler cfg q tFetch oF elapsed u now).2.latency =
      (monitorHandler cfg q tFetch oG elapsed u now).2.latency ∧
    (monitorHandler cfg q tFetch oF elapsed u now).2.cache =
      (monitorHandler cfg q tFetch oG elapsed u now).2.cache ∧
    (monitorHandler cfg q tFetch oF elapsed u now).2.cacheReason =
      (monitorHandler cfg q tFetch oG elapsed u now).2.cacheReason ∧
    (monitorHandler cfg q tFetch oF elapsed u now).2.bandwidth =
      (monitorHandler cfg q tFetch oG elapsed u now).2.bandwidth ∧
    (monitorHandler cfg q tFetch oF elapsed u now).2.originUptime =
      (originAssign (oF (originEndpointOf cfg q))).1 ∧
    (monitorHandler cfg q tFetch oF elapsed u now).2.originUptimeFormatted =
      (originAssign (oF (originEndpointOf cfg q))).2 := by
  cases htf : tFetch (selectTarget q.target cfg.defaultTarget) <;>
    simp [monitorHandler, htf]

/-- C8: whatever the header set and whatever the fetch outcomes, the cache
field of the served record is exactly one of the five enum strings HIT,
MISS, REVALIDATED, UNKNOWN, NONE. -/
theorem cache_enum_invariant (cfg : Config) (q : Query) (tFetch : String → TargetOutcome)
    (oFetch : String → OriginOutcome) (elapsed : ℕ) (u : ℚ) (now : ℕ) :
    (monitorHandler cfg q tFetch oFetch elapsed u now).2.cache ∈
      (["HIT", "MISS", "REVALIDATED", "UNKNOWN", "NONE"] : List String) := by
  cases htf : tFetch (selectTarget q.target cfg.defaultTarget) with
  | fetchError nm => simp [monitorHandler, htf]
  | fetched status body hs =>
    have hm := classify_mem_enum hs
    simpa [monitorHandler, htf] using hm

/-- C9: a `/monitor` request with no target query parameter probes exactly
the configured default target URL, and echoes it unchanged in the served
target field of the record. -/
theorem default_target_fallback (cfg : Config) (q : Query) (tFetch : String → TargetOutcome)
    (oFetch : String → OriginOutcome) (elapsed : ℕ) (u : ℚ) (now : ℕ)
    (hq : q.target = none) :
    selectTarget q.target cfg.defaultTarget = cfg.defaultTarget ∧
    (monitorHandler cfg q tFetch oFetch elapsed u now).2.target = cfg.defaultTarget := by
  have h1 : selectTarget q.target cfg.defaultTarget = cfg.defaultTarget := by
    simp [selectTarget, hq]
  refine ⟨h1, ?_⟩
  cases htf : tFetch cfg.defaultTarget <;> simp [monitorHandler, h1, htf]

/-- Witness for C9: with no query parameters the configured default "D" is
probed and echoed. -/
theorem default_target_fallback_witness :
    selectTarget (Query.mk none none none).target (Config.mk "D" "O").defaultTarget = "D" ∧
    (monitorHandler ⟨"D", "O"⟩ ⟨none, none, none⟩ (fun _ => .fetchError none)
        (fun _ => .fetchError) 0 0 0).2.target = "D" :=
  default_target_fallback ⟨"D", "O"⟩ ⟨none, none, none⟩ (fun _ => .fetchError none)
    (fun _ => .fetchError) 0 0 0 rfl

/-- C10: a present-but-empty target parameter is discarded by the
truthiness check and behaves exactly like an absent one (the whole served
response is identical); likewise an empty originUptime parameter is
discarded, so with no origin_uptime fallback parameter the default
origin-uptime endpoint is used. -/
theorem empty_param_fallback :
    (∀ (cfg : Config) (qo qo2 : Option String) (tFetch : String → TargetOutcome)
        (oFetch : String → OriginOutcome) (elapsed : ℕ) (u : ℚ) (now : ℕ),
      monitorHandler cfg ⟨some "", qo, qo2⟩ tFetch oFetch elapsed u now =
        monitorHandler cfg ⟨none, qo, qo2⟩ tFetch oFetch elapsed u now) ∧
    (∀ (cfg : Config) (qt qo2 : Option String),
      originEndpointOf cfg ⟨qt, some "", qo2⟩ = originEndpointOf cfg ⟨qt, none, qo2⟩) ∧
    (∀ (cfg : Config) (qt : Option String),
      originEndpointOf cfg ⟨qt, some "", none⟩ = cfg.defaultOriginUptimeEndpoint) := by
  refine ⟨?_, ?_, ?_⟩
  · intro cfg qo qo2 tFetch oFetch elapsed u now
    rfl
  · intro cfg qt qo2
    rfl
  · intro cfg qt
    rfl

/-- C6: `formatUptimeSeconds` returns "0s" on negative or non-finite
input; otherwise it truncates to whole seconds and decomposes them with
the hours segment present only if nonzero, the minutes segment present
iff minutes or hours is nonzero, and the seconds segment always present;
in particular on 0, -5, 65, 3661 and 3600 it returns "0s", "0s", "1m 5s",
"1h 1m 1s" and "1h 0m 0s". -/
theorem formatUptimeSeconds_spec :
    formatUptimeSeconds .nan = "0s" ∧
    (∀ q : ℚ, q < 0 → formatUptimeSeconds (.num q) = "0s") ∧
    (∀ q : ℚ, 0 ≤ q →
      formatUptimeSeconds (.num q) = specUptimeDecomposition (⌊q⌋).toNat) ∧
    formatUptimeSeconds (.num 0) = "0s" ∧
    formatUptimeSeconds (.num (-5)) = "0s" ∧
    formatUptimeSeconds (.num 65) = "1m 5s" ∧
    formatUptimeSeconds (.num 3661) = "1h 1m 1s" ∧
    formatUptimeSeconds (.num 3600) = "1h 0m 0s" := by
  refine ⟨rfl, ?_, ?_, by decide, by decide, by decide, by decide, by decide⟩
  · intro q hq
    simp [formatUptimeSeconds, hq]
  · intro q hq
    simp only [formatUptimeSeconds, specUptimeDecomposition, if_neg (not_lt.mpr hq)]
    by_cases h1 : (⌊q⌋).toNat / 3600 = 0 <;>
      by_cases h2 : ((⌊q⌋).toNat % 3600) / 60 = 0 <;>
      simp [h1, h2, intercalate_one, intercalate_two, intercalate_three] <;>
      (apply String.ext; simp [List.append_assoc])

/-- Witness for C6: the negative branch at -1 and the decomposition branch
at 65 applied concretely. -/
theorem formatUptimeSeconds_spec_witness :
    formatUptimeSeconds (.num (-1)) = "0s" ∧
    formatUptimeSeconds (.num 65) = specUptimeDecomposition (⌊(65 : ℚ)⌋).toNat :=
  ⟨formatUptimeSeconds_spec.2.1 (-1) (by decide),
    formatUptimeSeconds_spec.2.2.1 65 (by decide)⟩

/-- C7: the reported bandwidth is the UTF-8 byte count of the fetched body
text; it is 0 for an empty body and exactly N for N ASCII characters; and
when the body cannot be read (`r.text()` rejects, modelled as a `none`
body) the bandwidth is 0 while `/monitor` still answers 200. -/
theorem bandwidth_spec :
    (∀ (cfg : Config) (q : Query) (tFetch : String → TargetOutcome)
        (oFetch : String → OriginOutcome) (elapsed : ℕ) (u : ℚ) (now : ℕ)
        (status : ℕ) (text : String) (hs : Headers),
      tFetch (selectTarget q.target cfg.defaultTarget) = .fetched status (some text) hs →
      (monitorHandler cfg q tFetch oFetch elapsed u now).2.bandwidth = text.utf8ByteSize) ∧
    bytesLengthFromString "" = 0 ∧
    (∀ s : String, (∀ c ∈ s.data, c.toNat < 128) → bytesLengthFromString s = s.length) ∧
    (∀ (cfg : Config) (q : Query) (tFetch : String → TargetOutcome)
        (oFetch : String → OriginOutcome) (elapsed : ℕ) (u : ℚ) (now : ℕ)
        (status : ℕ) (hs : Headers),
      tFetch (selectTarget q.target cfg.defaultTarget) = .fetched status none hs →
      (monitorHandler cfg q tFetch oFetch elapsed u now).2.bandwidth = 0 ∧
        (monitorHandler cfg q tFetch oFetch elapsed u now).1 = 200) := by
  refine ⟨?_, rfl, ?_, ?_⟩
  · intro cfg q tFetch oFetch elapsed u now status text hs hf
    simp [monitorHandler, hf, bytesLengthFromString]
  · intro s h
    cases s with
    | mk l => simpa [bytesLengthFromString, String.utf8ByteSize, String.length] using
        utf8Len_ascii l h
  · intro cfg q tFetch oFetch elapsed u now status hs hf
    have h0 : ("" : String).utf8ByteSize = 0 := rfl
    constructor
    · simp [monitorHandler, hf, bytesLengthFromString, h0]
    · simp [monitorHandler]

/-- Witness for C7: the three hypothesised conjuncts applied at concrete
inputs — a five-byte ASCII body reports bandwidth 5, "abc" counts 3
bytes, and an unreadable body reports 0 with outer status 200. -/
theorem bandwidth_spec_witness :
    (monitorHandler ⟨"T", "O"⟩ ⟨none, none, none⟩
        (fun _ => .fetched 200 (some "hello") ⟨none, none, none, none, none⟩)
        (fun _ => .fetchError) 0 0 0).2.bandwidth = "hello".utf8ByteSize ∧
    bytesLengthFromString "abc" = "abc".length ∧
    (monitorHandler ⟨"T", "O"⟩ ⟨none, none, none⟩
        (fun _ => .fetched 200 none ⟨none, none, none, none, none⟩)
        (fun _ => .fetchError) 0 0 0).2.bandwidth = 0 ∧
    (monitorHandler ⟨"T", "O"⟩ ⟨none, none, none⟩
        (fun _ => .fetched 200 none ⟨none, none, none, none, none⟩)
        (fun _ => .fetchError) 0 0 0).1 = 200 := by
  refine ⟨?_, ?_, ?_, ?_⟩
  · exact bandwidth_spec.1 ⟨"T", "O"⟩ ⟨none, none, none⟩
      (fun _ => .fetched 200 (some "hello") ⟨none, none, none, none, none⟩)
      (fun _ => .fetchError) 0 0 0 200 "hello" ⟨none, none, none, none, none⟩ rfl
  · exact bandwidth_spec.2.2.1 "abc" (by decide)
  · exact (bandwidth_spec.2.2.2 ⟨"T", "O"⟩ ⟨none, none, none⟩
      (fun _ => .fetched 200 none ⟨none, none, none, none, none⟩)
      (fun _ => .fetchError) 0 0 0 200 ⟨none, none, none, none, none⟩ rfl).1
  · exact (bandwidth_spec.2.2.2 ⟨"T", "O"⟩ ⟨none, none, none⟩
      (fun _ => .fetched 200 none ⟨none, none, none, none, none⟩)
      (fun _ => .fetchError) 0 0 0 200 ⟨none, none, none, none, none⟩ rfl).2

end RTWM
